import Mathlib

/-!
Verification of the Model Resource Manager of the whisper-cpp-test
repository (`hooks/useWhisperModels.ts`, `App.tsx`).

The React hook `useWhisperModels` is embedded shallowly: its React state
variables become the fields of `ManagerState`, the device file system
becomes a list of existing paths, and the externally-performed transfer
(`RNFS.downloadFile`) and engine initializations (`initWhisper`,
`initWhisperVad`) become explicit behaviour parameters.  JavaScript
record updates `{...prev, [k]: v}` become association-list updates;
the progress fraction `bytesWritten / contentLength` is computed in ℚ.
-/

namespace WhisperApp

/-- Capability flags of a catalog entry (`WhisperModel.capabilities`). -/
structure Capabilities where
  multilingual : Bool
  quantizable : Bool
  tdrz : Option Bool
  deriving Repr, DecidableEq

/-- A compiled-in model descriptor (`interface WhisperModel`). -/
structure WhisperModel where
  id : String
  label : String
  url : String
  filename : String
  capabilities : Capabilities
  deriving Repr, DecidableEq

/-- The first catalog entry. -/
def tinyModel : WhisperModel :=
  { id := "tiny", label := "Tiny (en)",
    url := "https://huggingface.co/ggerganov/whisper.cpp/resolve/main/ggml-tiny.en.bin",
    filename := "ggml-tiny.en.bin",
    capabilities := { multilingual := false, quantizable := false, tdrz := none } }

/-- The second catalog entry. -/
def baseModel : WhisperModel :=
  { id := "base", label := "Base Model",
    url := "https://huggingface.co/ggerganov/whisper.cpp/resolve/main/ggml-base.bin",
    filename := "ggml-base.bin",
    capabilities := { multilingual := true, quantizable := false, tdrz := none } }

/-- The third catalog entry. -/
def smallModel : WhisperModel :=
  { id := "small", label := "Small Model",
    url := "https://huggingface.co/ggerganov/whisper.cpp/resolve/main/ggml-small.bin",
    filename := "ggml-small.bin",
    capabilities := { multilingual := true, quantizable := false, tdrz := none } }

/-- The fourth catalog entry. -/
def smallTdrzModel : WhisperModel :=
  { id := "small-tdrz", label := "Small (tdrz)",
    url := "https://huggingface.co/ggerganov/whisper.cpp/resolve/main/ggml-small.en-tdrz.bin",
    filename := "ggml-small.en-tdrz.bin",
    capabilities := { multilingual := false, quantizable := false, tdrz := some true } }

/-- The compiled-in catalog `WHISPER_MODELS`. -/
def WHISPER_MODELS : List WhisperModel :=
  [tinyModel, baseModel, smallModel, smallTdrzModel]

/-- An initialized recognition-engine handle (`WhisperContext`); it records
the model file it was built from (`initWhisper({ filePath })`). -/
structure Ctx where
  path : String
  deriving Repr, DecidableEq

/-- An initialized voice-activity-detection handle (`initWhisperVad`). -/
structure VadCtx where
  path : String
  deriving Repr, DecidableEq

/-- Association-list lookup, the read of a JS record `m[k]`. -/
def lookupKey (m : List (String × α)) (k : String) : Option α :=
  (m.find? (fun p => p.1 = k)).map (fun p => p.2)

/-- Drop every binding of key `k`. -/
def eraseKey (m : List (String × α)) (k : String) : List (String × α) :=
  m.filter (fun p => ¬ p.1 = k)

/-- The JS record update `{...m, [k]: v}`. -/
def setKey (m : List (String × α)) (k : String) (v : α) : List (String × α) :=
  eraseKey m k ++ [(k, v)]

/-- The React state of the `useWhisperModels` hook. -/
structure ManagerState where
  modelFiles : List (String × String)
  downloadProgress : List (String × ℚ)
  isDownloading : Bool
  isInitializingModel : Bool
  whisperContext : Option Ctx
  vadContext : Option VadCtx
  currentModelId : Option String
  deriving Repr, DecidableEq

/-- The state produced by the `useState` initializers of the hook. -/
def initialState : ManagerState :=
  { modelFiles := [], downloadProgress := [], isDownloading := false,
    isInitializingModel := false, whisperContext := none, vadContext := none,
    currentModelId := none }

/-- The device file system: the set of paths at which a file exists. -/
abbrev FS := List String

/-- `RNFS.exists`. -/
def fileExists (fs : FS) (p : String) : Bool :=
  fs.contains p

/-- A completed write leaves the path present. -/
def insertFile (fs : FS) (p : String) : FS :=
  if fileExists fs p then fs else fs ++ [p]

/-- `RNFS.unlink`-style removal. -/
def removeFile (fs : FS) (p : String) : FS :=
  fs.filter (fun q => ¬ q = p)

/-- `RNFS.DocumentDirectoryPath`, the fixed device document directory. -/
def DocumentDirectoryPath : String := "/data/Documents"

/-- `getModelDirectory`: the deterministic model directory
`RNFS.DocumentDirectoryPath + "/whisper-models/"` (the idempotent `mkdir`
has no effect on the path-set model). -/
def getModelDirectory : String := DocumentDirectoryPath ++ "/whisper-models/"

/-- The deterministic cache path `directory + model.filename` of a descriptor. -/
def modelFilePath (m : WhisperModel) : String := getModelDirectory ++ m.filename

/-- Errors surfaced by the manager's operations. -/
inductive WhisperError where
  | invalidModel
  | downloadFailed (statusCode : Int)
  | initFailed (path : String)
  deriving Repr, DecidableEq

/-- The behaviour of one `RNFS.downloadFile` transfer: the content length it
reports, the successive `bytesWritten` values delivered to the progress
callback, the final status code, and whether the transfer leaves a file
(possibly incomplete) at the destination path. -/
structure DownloadBehavior where
  contentLength : ℚ
  events : List ℚ
  statusCode : Int
  writesFile : Bool
  deriving Repr, DecidableEq

/-- The successive values stored into `downloadProgress[model.id]` by the
progress callback: `res.bytesWritten / res.contentLength`. -/
def progressValues (dl : DownloadBehavior) : List ℚ :=
  dl.events.map (fun bw => bw / dl.contentLength)

/-- Fold the progress callback over the events. -/
def applyProgress (id : String) (dl : DownloadBehavior)
    (dp : List (String × ℚ)) : List (String × ℚ) :=
  dl.events.foldl (fun acc bw => setKey acc id (bw / dl.contentLength)) dp

/-- Everything `downloadModel` produces: its promise result, the hook state,
the file system, and how many network transfers it performed. -/
structure DownloadStep where
  result : Except WhisperError String
  state : ManagerState
  fs : FS
  downloads : Nat

/-- `downloadModel` of `useWhisperModels.ts`.

Mirrors the source line by line: if the file already exists at the cache
path, record `modelFiles[model.id] = filePath` and return the path with no
transfer; otherwise set `isDownloading`, run the transfer (progress events,
then the file write), and on status 200 record the cache entry and set
progress to 1, while any other status throws; `finally` clears
`isDownloading` on both exit paths of the transfer. -/
def downloadModel (model : WhisperModel) (dl : DownloadBehavior)
    (st : ManagerState) (fs : FS) : DownloadStep :=
  let filePath := modelFilePath model
  if fileExists fs filePath then
    { result := .ok filePath
      state := { st with modelFiles := setKey st.modelFiles model.id filePath }
      fs := fs
      downloads := 0 }
  else
    let st1 : ManagerState := { st with isDownloading := true }
    let st2 : ManagerState :=
      { st1 with downloadProgress := applyProgress model.id dl st1.downloadProgress }
    let fs1 := if dl.writesFile then insertFile fs filePath else fs
    if dl.statusCode = 200 then
      { result := .ok filePath
        state := { st2 with
          modelFiles := setKey st2.modelFiles model.id filePath
          downloadProgress := setKey st2.downloadProgress model.id 1
          isDownloading := false }
        fs := fs1
        downloads := 1 }
    else
      { result := .error (.downloadFailed dl.statusCode)
        state := { st2 with isDownloading := false }
        fs := fs1
        downloads := 1 }

/-- `isModelDownloaded`: `modelFiles[modelId] !== undefined`. -/
def isModelDownloaded (st : ManagerState) (modelId : String) : Bool :=
  (lookupKey st.modelFiles modelId).isSome

/-- `getDownloadProgress`: `downloadProgress[modelId] || 0`. -/
def getDownloadProgress (st : ManagerState) (modelId : String) : ℚ :=
  (lookupKey st.downloadProgress modelId).getD 0

/-- `getModelById`. -/
def getModelById (modelId : String) : Option WhisperModel :=
  WHISPER_MODELS.find? (fun m => m.id = modelId)

/-- The behaviour of the external world during one `initializeWhisperModel`
call: the transfer behaviour used if a download is needed, and whether
`initWhisper` / `initWhisperVad` succeed on a given file path. -/
structure Env where
  dl : DownloadBehavior
  initOk : String → Bool
  vadOk : String → Bool

/-- Everything `initializeWhisperModel` produces: its promise result (the
returned `{ whisperContext, vadContext }` pair, or the thrown error), the
hook state, the file system, and how many transfers and how many primary
engine initializations were attempted. -/
structure InitStep where
  result : Except WhisperError (Ctx × Option VadCtx)
  state : ManagerState
  fs : FS
  downloads : Nat
  engineInits : Nat

/-- `initializeWhisperModel` of `useWhisperModels.ts`.

Mirrors the source: the catalog lookup throws `Invalid model selected`
before the `try` block (so no flag is set and nothing else runs); inside
the `try`, `isInitializingModel` is set, the model is resolved via
`downloadModel`, `initWhisper` is attempted, and only on its success are
`whisperContext` and `currentModelId` set; a requested VAD initialization
is attempted in its own `try`/`catch`, so its failure is swallowed and
`vadContext` is set only on its success.  The returned `vadContext` field
is the hook's `vadContext` variable captured by the `useCallback` closure
— the value the state had when the call began, not the handle just
created.  The `finally` clears `isInitializingModel` on every exit path
of the `try`. -/
def initializeWhisperModel (modelId : String) (initVad : Bool) (env : Env)
    (st : ManagerState) (fs : FS) : InitStep :=
  match WHISPER_MODELS.find? (fun m => m.id = modelId) with
  | none =>
      { result := .error .invalidModel, state := st, fs := fs,
        downloads := 0, engineInits := 0 }
  | some model =>
      let st1 : ManagerState := { st with isInitializingModel := true }
      let d := downloadModel model env.dl st1 fs
      match d.result with
      | .error e =>
          { result := .error e
            state := { d.state with isInitializingModel := false }
            fs := d.fs, downloads := d.downloads, engineInits := 0 }
      | .ok modelPath =>
          if env.initOk modelPath then
            let context : Ctx := { path := modelPath }
            let st2 : ManagerState :=
              { d.state with
                whisperContext := some context
                currentModelId := some modelId }
            let st3 : ManagerState :=
              if initVad then
                if env.vadOk modelPath then
                  { st2 with vadContext := some { path := modelPath } }
                else st2
              else st2
            { result := .ok (context, if initVad then st.vadContext else none)
              state := { st3 with isInitializingModel := false }
              fs := d.fs, downloads := d.downloads, engineInits := 1 }
          else
            { result := .error (.initFailed modelPath)
              state := { d.state with isInitializingModel := false }
              fs := d.fs, downloads := d.downloads, engineInits := 1 }

/-- `resetWhisperContext` of `useWhisperModels.ts`. -/
def resetWhisperContext (st : ManagerState) : ManagerState :=
  { st with whisperContext := none, vadContext := none, currentModelId := none }

/-- Modelled from the spec: `deleteModel` of §4.1 (Model Resource Manager)
is not present under `src/` — only its caller `handleDeleteModel` in
`App.tsx` is.  Per the spec it removes the cached file if present, removes
the CacheEntry, clears the active session when the deleted identifier is
the currently active model, and deleting an already-absent model is not an
error. -/
def deleteModel (modelId : String) (st : ManagerState) (fs : FS) :
    ManagerState × FS :=
  let fs1 : FS :=
    match getModelById modelId with
    | some m => removeFile fs (modelFilePath m)
    | none => fs
  let st1 : ManagerState := { st with modelFiles := eraseKey st.modelFiles modelId }
  let st2 : ManagerState :=
    if st.currentModelId = some modelId then resetWhisperContext st1 else st1
  (st2, fs1)

/-! ### Helper lemmas about association-list updates -/

theorem find?_eraseKey_self (m : List (String × α)) (k : String) :
    (eraseKey m k).find? (fun p => p.1 = k) = none := by
  rw [List.find?_eq_none]
  intro x hx
  rcases List.mem_filter.mp hx with ⟨_, hk⟩
  simpa using hk

theorem lookupKey_eraseKey (m : List (String × α)) (k : String) :
    lookupKey (eraseKey m k) k = none := by
  unfold lookupKey
  rw [find?_eraseKey_self]
  rfl

theorem lookupKey_setKey (m : List (String × α)) (k : String) (v : α) :
    lookupKey (setKey m k v) k = some v := by
  unfold lookupKey setKey
  rw [List.find?_append, find?_eraseKey_self]
  simp

theorem find?_eraseKey_ne (m : List (String × α)) (k k' : String)
    (h : ¬ k' = k) :
    (eraseKey m k).find? (fun p => p.1 = k') = m.find? (fun p => p.1 = k') := by
  unfold eraseKey
  rw [List.find?_filter]
  congr 1
  funext a
  by_cases ha : a.1 = k'
  · have hak : ¬ a.1 = k := by rw [ha]; exact h
    simp [ha, hak, h]
  · simp [ha]

theorem lookupKey_setKey_ne (m : List (String × α)) (k k' : String) (v : α)
    (h : ¬ k' = k) : lookupKey (setKey m k v) k' = lookupKey m k' := by
  unfold lookupKey setKey
  rw [List.find?_append, find?_eraseKey_ne m k k' h]
  have hkk : ¬ k = k' := fun hh => h hh.symm
  have hk : List.find? (fun p => p.1 = k') [(k, v)] = none := by
    simp [List.find?, hkk]
  rw [hk]
  cases m.find? (fun p => p.1 = k') <;> rfl

theorem eraseKey_idem (m : List (String × α)) (k : String) :
    eraseKey (eraseKey m k) k = eraseKey m k := by
  unfold eraseKey
  rw [List.filter_filter]
  apply List.filter_congr
  intro a _
  by_cases h : a.1 = k <;> simp [h]

/-! ### Helper lemmas about `downloadModel` -/

theorem downloadModel_result_cases (model : WhisperModel)
    (dl : DownloadBehavior) (st : ManagerState) (fs : FS) :
    (downloadModel model dl st fs).result = .ok (modelFilePath model) ∨
    (downloadModel model dl st fs).result
      = .error (.downloadFailed dl.statusCode) := by
  by_cases hex : fileExists fs (modelFilePath model) = true <;>
    by_cases hs : dl.statusCode = 200 <;> simp [downloadModel, hex, hs]

theorem downloadModel_ok (model : WhisperModel) (dl : DownloadBehavior)
    (st : ManagerState) (fs : FS)
    (h : fileExists fs (modelFilePath model) = true ∨ dl.statusCode = 200) :
    (downloadModel model dl st fs).result = .ok (modelFilePath model) := by
  by_cases hex : fileExists fs (modelFilePath model) = true
  · simp [downloadModel, hex]
  · rcases h with h | h
    · exact absurd h hex
    · simp [downloadModel, hex, h]

theorem downloadModel_frame (model : WhisperModel) (dl : DownloadBehavior)
    (st : ManagerState) (fs : FS) :
    (downloadModel model dl st fs).state.whisperContext = st.whisperContext ∧
    (downloadModel model dl st fs).state.vadContext = st.vadContext ∧
    (downloadModel model dl st fs).state.currentModelId = st.currentModelId ∧
    (downloadModel model dl st fs).state.isInitializingModel
      = st.isInitializingModel := by
  by_cases hex : fileExists fs (modelFilePath model) = true <;>
    by_cases hs : dl.statusCode = 200 <;> simp [downloadModel, hex, hs]

/-! ### Claims -/

/-- **C1.** For every model descriptor, if a file already exists at the
deterministic cache path (model directory + descriptor filename), then
`downloadModel` returns that path without performing any download and
records the cache entry `modelFiles[id] = path`; two successive calls with
the file cached perform zero downloads and return the same path both
times. -/
theorem downloadModel_cached_skips_download
    (model : WhisperModel) (dl dl2 : DownloadBehavior) (st : ManagerState)
    (fs : FS) (hex : fileExists fs (modelFilePath model) = true) :
    (downloadModel model dl st fs).result = .ok (modelFilePath model) ∧
    (downloadModel model dl st fs).downloads = 0 ∧
    lookupKey (downloadModel model dl st fs).state.modelFiles model.id
      = some (modelFilePath model) ∧
    (downloadModel model dl st fs).fs = fs ∧
    (downloadModel model dl2 (downloadModel model dl st fs).state
        (downloadModel model dl st fs).fs).result = .ok (modelFilePath model) ∧
    (downloadModel model dl2 (downloadModel model dl st fs).state
        (downloadModel model dl st fs).fs).downloads = 0 := by
  simp [downloadModel, hex, lookupKey_setKey]

/-- Witness for C1 at the `tiny` descriptor with its file already on disk. -/
theorem downloadModel_cached_skips_download_witness :
    fileExists [modelFilePath tinyModel] (modelFilePath tinyModel) = true ∧
    ((downloadModel tinyModel ⟨100, [], 200, true⟩ initialState
        [modelFilePath tinyModel]).result = .ok (modelFilePath tinyModel) ∧
      (downloadModel tinyModel ⟨100, [], 200, true⟩ initialState
        [modelFilePath tinyModel]).downloads = 0 ∧
      lookupKey (downloadModel tinyModel ⟨100, [], 200, true⟩ initialState
        [modelFilePath tinyModel]).state.modelFiles tinyModel.id
        = some (modelFilePath tinyModel) ∧
      (downloadModel tinyModel ⟨100, [], 200, true⟩ initialState
        [modelFilePath tinyModel]).fs = [modelFilePath tinyModel] ∧
      (downloadModel tinyModel ⟨7, [], 404, false⟩
        (downloadModel tinyModel ⟨100, [], 200, true⟩ initialState
          [modelFilePath tinyModel]).state
        (downloadModel tinyModel ⟨100, [], 200, true⟩ initialState
          [modelFilePath tinyModel]).fs).result = .ok (modelFilePath tinyModel) ∧
      (downloadModel tinyModel ⟨7, [], 404, false⟩
        (downloadModel tinyModel ⟨100, [], 200, true⟩ initialState
          [modelFilePath tinyModel]).state
        (downloadModel tinyModel ⟨100, [], 200, true⟩ initialState
          [modelFilePath tinyModel]).fs).downloads = 0) :=
  ⟨by decide,
    downloadModel_cached_skips_download tinyModel ⟨100, [], 200, true⟩
      ⟨7, [], 404, false⟩ initialState [modelFilePath tinyModel] (by decide)⟩

/-- **C2.** For every download whose transfer completes with a non-success
status (statusCode ≠ 200), `downloadModel` throws, records no cache entry
for that identifier (so a subsequent `isModelDownloaded` check returns
false when none existed before), and the `isDownloading` flag is cleared on
every exit path of the transfer, success or failure. -/
theorem downloadModel_failure_no_entry_clears_flag
    (model : WhisperModel) (dl : DownloadBehavior) (st : ManagerState)
    (fs : FS) (hne : ¬ fileExists fs (modelFilePath model) = true) :
    (downloadModel model dl st fs).state.isDownloading = false ∧
    (¬ dl.statusCode = 200 →
      (downloadModel model dl st fs).result
          = .error (.downloadFailed dl.statusCode) ∧
        (downloadModel model dl st fs).state.modelFiles = st.modelFiles ∧
        (lookupKey st.modelFiles model.id = none →
          isModelDownloaded (downloadModel model dl st fs).state model.id
            = false)) := by
  by_cases hs : dl.statusCode = 200 <;>
    simp_all [downloadModel, isModelDownloaded]

/-- Witness for C2: a 404 transfer for `tiny` on an empty file system. -/
theorem downloadModel_failure_no_entry_clears_flag_witness :
    (¬ fileExists [] (modelFilePath tinyModel) = true) ∧
    (¬ (404 : Int) = 200) ∧
    lookupKey initialState.modelFiles tinyModel.id = none ∧
    ((downloadModel tinyModel ⟨100, [50], 404, true⟩ initialState
        []).state.isDownloading = false ∧
      (downloadModel tinyModel ⟨100, [50], 404, true⟩ initialState
        []).result = .error (.downloadFailed 404) ∧
      (downloadModel tinyModel ⟨100, [50], 404, true⟩ initialState
        []).state.modelFiles = initialState.modelFiles ∧
      isModelDownloaded (downloadModel tinyModel ⟨100, [50], 404, true⟩
        initialState []).state tinyModel.id = false) := by
  refine ⟨by decide, by decide, by decide, ?_⟩
  have h := downloadModel_failure_no_entry_clears_flag tinyModel
    ⟨100, [50], 404, true⟩ initialState [] (by decide)
  exact ⟨h.1, (h.2 (by decide)).1, (h.2 (by decide)).2.1,
    (h.2 (by decide)).2.2 (by decide)⟩

/-- **C9.** `resetWhisperContext` sets the active recognition handle, the
voice-activity handle, and the active-model identifier to `null`, leaves
the `modelFiles` and `downloadProgress` maps unchanged, and is
idempotent. -/
theorem resetWhisperContext_clears_session (st : ManagerState) :
    (resetWhisperContext st).whisperContext = none ∧
    (resetWhisperContext st).vadContext = none ∧
    (resetWhisperContext st).currentModelId = none ∧
    (resetWhisperContext st).modelFiles = st.modelFiles ∧
    (resetWhisperContext st).downloadProgress = st.downloadProgress ∧
    resetWhisperContext (resetWhisperContext st) = resetWhisperContext st := by
  simp [resetWhisperContext]

/-- **C8.** For every identifier not present in the compiled-in catalog,
`initializeWhisperModel` throws the invalid-model error before performing
any download or engine initialization and leaves all manager state
unchanged; for every identifier in the catalog, no invalid-model error is
raised. -/
theorem initializeWhisperModel_invalid_guard (modelId : String)
    (initVad : Bool) (env : Env) (st : ManagerState) (fs : FS) :
    ((∀ m ∈ WHISPER_MODELS, ¬ m.id = modelId) →
      (initializeWhisperModel modelId initVad env st fs).result
          = .error .invalidModel ∧
        (initializeWhisperModel modelId initVad env st fs).state = st ∧
        (initializeWhisperModel modelId initVad env st fs).fs = fs ∧
        (initializeWhisperModel modelId initVad env st fs).downloads = 0 ∧
        (initializeWhisperModel modelId initVad env st fs).engineInits = 0) ∧
    ((∃ m ∈ WHISPER_MODELS, m.id = modelId) →
      ¬ (initializeWhisperModel modelId initVad env st fs).result
          = .error .invalidModel) := by
  constructor
  · intro hall
    have hfind : WHISPER_MODELS.find? (fun m => m.id = modelId) = none := by
      rw [List.find?_eq_none]
      intro m hm
      simpa using hall m hm
    simp [initializeWhisperModel, hfind]
  · rintro ⟨m0, hm0, hid⟩ hcontra
    rcases hfind : WHISPER_MODELS.find? (fun m => m.id = modelId) with _ | model
    · rw [List.find?_eq_none] at hfind
      have hne : ¬ m0.id = modelId := by simpa using hfind m0 hm0
      exact hne hid
    · rcases hdl : (downloadModel model env.dl
          { st with isInitializingModel := true } fs).result with e | p
      · rcases downloadModel_result_cases model env.dl
            { st with isInitializingModel := true } fs with hc | hc <;>
          rw [hdl] at hc
        · exact Except.noConfusion hc
        · cases hc
          rw [initializeWhisperModel] at hcontra
          simp only [hfind, hdl] at hcontra
          exact WhisperError.noConfusion (Except.error.inj hcontra)
      · by_cases hio : env.initOk p = true <;>
          · rw [initializeWhisperModel] at hcontra
            simp [hfind, hdl, hio] at hcontra

/-- Witness for C8: `"bogus"` is rejected with the state untouched, while
the catalog identifier `"tiny"` never raises the invalid-model error. -/
theorem initializeWhisperModel_invalid_guard_witness :
    (∀ m ∈ WHISPER_MODELS, ¬ m.id = "bogus") ∧
    (∃ m ∈ WHISPER_MODELS, m.id = "tiny") ∧
    ((initializeWhisperModel "bogus" false
        ⟨⟨100, [], 200, true⟩, fun _ => true, fun _ => true⟩ initialState
        []).result = .error .invalidModel ∧
      (initializeWhisperModel "bogus" false
        ⟨⟨100, [], 200, true⟩, fun _ => true, fun _ => true⟩ initialState
        []).state = initialState ∧
      (initializeWhisperModel "bogus" false
        ⟨⟨100, [], 200, true⟩, fun _ => true, fun _ => true⟩ initialState
        []).fs = [] ∧
      (initializeWhisperModel "bogus" false
        ⟨⟨100, [], 200, true⟩, fun _ => true, fun _ => true⟩ initialState
        []).downloads = 0 ∧
      (initializeWhisperModel "bogus" false
        ⟨⟨100, [], 200, true⟩, fun _ => true, fun _ => true⟩ initialState
        []).engineInits = 0) ∧
    ¬ (initializeWhisperModel "tiny" false
        ⟨⟨100, [], 200, true⟩, fun _ => true, fun _ => true⟩ initialState
        []).result = .error .invalidModel :=
  ⟨by decide, ⟨tinyModel, by decide, by decide⟩,
    (initializeWhisperModel_invalid_guard "bogus" false
      ⟨⟨100, [], 200, true⟩, fun _ => true, fun _ => true⟩ initialState
      []).1 (by decide),
    (initializeWhisperModel_invalid_guard "tiny" false
      ⟨⟨100, [], 200, true⟩, fun _ => true, fun _ => true⟩ initialState
      []).2 ⟨tinyModel, by decide, by decide⟩⟩

/-- **C5.** `deleteModel(identifier)` removes the cached file if present and
removes the cache entry, so a subsequent cached-check returns "not cached";
deleting an already-absent model is not an error (the operation is total
and re-deleting changes nothing); and if the deleted identifier is the
currently active model, the active session (handles and active-model
identifier) is cleared. -/
theorem deleteModel_contract (modelId : String) (st : ManagerState)
    (fs : FS) :
    isModelDownloaded (deleteModel modelId st fs).1 modelId = false ∧
    (∀ m, getModelById modelId = some m →
      fileExists (deleteModel modelId st fs).2 (modelFilePath m) = false) ∧
    (st.currentModelId = some modelId →
      (deleteModel modelId st fs).1.whisperContext = none ∧
        (deleteModel modelId st fs).1.vadContext = none ∧
        (deleteModel modelId st fs).1.currentModelId = none) ∧
    deleteModel modelId (deleteModel modelId st fs).1
        (deleteModel modelId st fs).2
      = deleteModel modelId st fs := by
  refine ⟨?_, ?_, ?_, ?_⟩
  · by_cases hc : st.currentModelId = some modelId <;>
      simp [deleteModel, hc, isModelDownloaded, resetWhisperContext,
        lookupKey_eraseKey]
  · intro m hm
    by_cases hc : st.currentModelId = some modelId <;>
      simp [deleteModel, hm, hc, fileExists, removeFile, List.mem_filter]
  · intro hc
    simp [deleteModel, hc, resetWhisperContext]
  · by_cases hc : st.currentModelId = some modelId
    · rcases hm : getModelById modelId with _ | m <;>
        simp [deleteModel, hc, hm, resetWhisperContext, eraseKey_idem,
          removeFile, List.filter_filter]
    · rcases hm : getModelById modelId with _ | m <;>
        simp [deleteModel, hc, hm, eraseKey_idem, removeFile,
          List.filter_filter]

/-- Witness for C5: deleting the active, cached `tiny` model. -/
theorem deleteModel_contract_witness :
    getModelById "tiny" = some tinyModel ∧
    ({ initialState with
        modelFiles := [("tiny", modelFilePath tinyModel)]
        whisperContext := some ⟨modelFilePath tinyModel⟩
        currentModelId := some "tiny" } : ManagerState).currentModelId
      = some "tiny" ∧
    (isModelDownloaded (deleteModel "tiny"
        { initialState with
          modelFiles := [("tiny", modelFilePath tinyModel)]
          whisperContext := some ⟨modelFilePath tinyModel⟩
          currentModelId := some "tiny" }
        [modelFilePath tinyModel]).1 "tiny" = false ∧
      fileExists (deleteModel "tiny"
        { initialState with
          modelFiles := [("tiny", modelFilePath tinyModel)]
          whisperContext := some ⟨modelFilePath tinyModel⟩
          currentModelId := some "tiny" }
        [modelFilePath tinyModel]).2 (modelFilePath tinyModel) = false ∧
      (deleteModel "tiny"
        { initialState with
          modelFiles := [("tiny", modelFilePath tinyModel)]
          whisperContext := some ⟨modelFilePath tinyModel⟩
          currentModelId := some "tiny" }
        [modelFilePath tinyModel]).1.whisperContext = none ∧
      (deleteModel "tiny"
        { initialState with
          modelFiles := [("tiny", modelFilePath tinyModel)]
          whisperContext := some ⟨modelFilePath tinyModel⟩
          currentModelId := some "tiny" }
        [modelFilePath tinyModel]).1.currentModelId = none) := by
  refine ⟨by decide, by decide, ?_⟩
  have h := deleteModel_contract "tiny"
    { initialState with
      modelFiles := [("tiny", modelFilePath tinyModel)]
      whisperContext := some ⟨modelFilePath tinyModel⟩
      currentModelId := some "tiny" }
    [modelFilePath tinyModel]
  exact ⟨h.1, h.2.1 tinyModel (by decide), (h.2.2.1 (by decide)).1,
    (h.2.2.1 (by decide)).2.2⟩

/-- A state in which the `base` model was previously initialized together
with a successful VAD initialization. -/
def stAfterBaseVad : ManagerState :=
  { initialState with
    modelFiles := [("base", modelFilePath baseModel)]
    whisperContext := some ⟨modelFilePath baseModel⟩
    vadContext := some ⟨modelFilePath baseModel⟩
    currentModelId := some "base" }

/-- An environment in which transfers succeed, the primary engine
initialization succeeds, and the VAD initialization fails. -/
def envVadFails : Env :=
  ⟨⟨100, [], 200, true⟩, fun _ => true, fun _ => false⟩

/-- **C3, counterexample.** Initializing `tiny` with `initVad := true` in a
state that still holds the VAD handle of an earlier `base` session, with
the primary initialization succeeding and the VAD initialization failing:
the call returns the previously held (captured) VAD handle, not a null
one, because the returned `vadContext` field reads the stale `useCallback`
closure variable. -/
theorem initializeWhisperModel_vad_failure_cex :
    (initializeWhisperModel "tiny" true envVadFails stAfterBaseVad
        [modelFilePath tinyModel]).result
      = .ok (⟨modelFilePath tinyModel⟩, some ⟨modelFilePath baseModel⟩) ∧
    ¬ (some (⟨modelFilePath baseModel⟩ : VadCtx) = (none : Option VadCtx)) :=
  ⟨rfl, by simp⟩

/-- **C3, amended.** For every `initializeWhisperModel` call requesting VAD
where the model resolves (cached file or success status), the primary
engine initialization succeeds and the VAD initialization fails, the call
still completes successfully, returns the new primary handle, and sets no
voice-activity handle in state; the returned VAD field is the VAD handle
captured at call entry — which is null exactly when no VAD handle was
previously held — rather than always null. -/
theorem initializeWhisperModel_vad_failure_nonfatal (modelId : String)
    (env : Env) (st : ManagerState) (fs : FS) (model : WhisperModel)
    (hfind : WHISPER_MODELS.find? (fun m => m.id = modelId) = some model)
    (hok : fileExists fs (modelFilePath model) = true ∨
      env.dl.statusCode = 200)
    (hinit : env.initOk (modelFilePath model) = true)
    (hvad : env.vadOk (modelFilePath model) = false) :
    (initializeWhisperModel modelId true env st fs).result
      = .ok (⟨modelFilePath model⟩, st.vadContext) ∧
    (initializeWhisperModel modelId true env st fs).state.whisperContext
      = some ⟨modelFilePath model⟩ ∧
    (initializeWhisperModel modelId true env st fs).state.currentModelId
      = some modelId ∧
    (initializeWhisperModel modelId true env st fs).state.vadContext
      = st.vadContext := by
  have hres := downloadModel_ok model env.dl
    { st with isInitializingModel := true } fs hok
  have hframe := downloadModel_frame model env.dl
    { st with isInitializingModel := true } fs
  refine ⟨?_, ?_, ?_, ?_⟩ <;>
    simp [initializeWhisperModel, hfind, hres, hinit, hvad, hframe.2.1]

/-- Witness for C3 (amended) at a fresh state, where the captured VAD
handle — and hence the returned VAD field — is null. -/
theorem initializeWhisperModel_vad_failure_nonfatal_witness :
    WHISPER_MODELS.find? (fun m => m.id = "tiny") = some tinyModel ∧
    fileExists [modelFilePath tinyModel] (modelFilePath tinyModel) = true ∧
    envVadFails.initOk (modelFilePath tinyModel) = true ∧
    envVadFails.vadOk (modelFilePath tinyModel) = false ∧
    ((initializeWhisperModel "tiny" true envVadFails initialState
        [modelFilePath tinyModel]).result
        = .ok (⟨modelFilePath tinyModel⟩, initialState.vadContext) ∧
      (initializeWhisperModel "tiny" true envVadFails initialState
        [modelFilePath tinyModel]).state.whisperContext
        = some ⟨modelFilePath tinyModel⟩ ∧
      (initializeWhisperModel "tiny" true envVadFails initialState
        [modelFilePath tinyModel]).state.currentModelId = some "tiny" ∧
      (initializeWhisperModel "tiny" true envVadFails initialState
        [modelFilePath tinyModel]).state.vadContext
        = initialState.vadContext) :=
  ⟨by decide, by decide, rfl, rfl,
    initializeWhisperModel_vad_failure_nonfatal "tiny" envVadFails
      initialState [modelFilePath tinyModel] tinyModel (by decide)
      (Or.inl (by decide)) rfl rfl⟩

/-- A state in which the `tiny` model was previously initialized together
with a successful VAD initialization. -/
def stAfterTinyVad : ManagerState :=
  { initialState with
    modelFiles := [("tiny", modelFilePath tinyModel)]
    whisperContext := some ⟨modelFilePath tinyModel⟩
    vadContext := some ⟨modelFilePath tinyModel⟩
    currentModelId := some "tiny" }

/-- An environment in which transfers and both initializations succeed. -/
def envAllOk : Env :=
  ⟨⟨100, [], 200, true⟩, fun _ => true, fun _ => true⟩

/-- **C4, counterexample.** After a `tiny` session whose VAD initialization
succeeded, successfully initializing `base` (model B) without requesting
VAD leaves the active-model identifier and the primary handle bound to
`base` — but the still-held voice-activity handle remains bound to `tiny`
(model A), refuting that any held voice-activity handle is bound to the
last successfully initialized model. -/
theorem initializeWhisperModel_supersede_cex :
    (initializeWhisperModel "base" false envAllOk stAfterTinyVad
        [modelFilePath tinyModel, modelFilePath baseModel]).state.currentModelId
      = some "base" ∧
    (initializeWhisperModel "base" false envAllOk stAfterTinyVad
        [modelFilePath tinyModel, modelFilePath baseModel]).state.whisperContext
      = some ⟨modelFilePath baseModel⟩ ∧
    (initializeWhisperModel "base" false envAllOk stAfterTinyVad
        [modelFilePath tinyModel, modelFilePath baseModel]).state.vadContext
      = some ⟨modelFilePath tinyModel⟩ ∧
    ¬ modelFilePath tinyModel = modelFilePath baseModel :=
  ⟨rfl, rfl, rfl, by decide⟩

/-- **C4, amended.** `currentModelId` is set only after the primary engine
handle is successfully created — on a failed initialization the previously
active identifier and primary handle are unchanged — and after
successfully initializing model B exactly one primary handle exists and it
is bound to B; a held voice-activity handle, however, is replaced only
when the call itself performs a successful VAD initialization, and
otherwise remains whatever it was before the call (possibly bound to the
previous model). -/
theorem initializeWhisperModel_supersedes (modelId : String) (initVad : Bool)
    (env : Env) (st : ManagerState) (fs : FS) :
    ((∃ e, (initializeWhisperModel modelId initVad env st fs).result
        = .error e) →
      (initializeWhisperModel modelId initVad env st fs).state.currentModelId
          = st.currentModelId ∧
        (initializeWhisperModel modelId initVad env st fs).state.whisperContext
          = st.whisperContext) ∧
    (∀ ctx vad, (initializeWhisperModel modelId initVad env st fs).result
        = .ok (ctx, vad) →
      ∃ model, WHISPER_MODELS.find? (fun m => m.id = modelId) = some model ∧
        model.id = modelId ∧
        ctx = ⟨modelFilePath model⟩ ∧
        (initializeWhisperModel modelId initVad env st fs).state.whisperContext
          = some ctx ∧
        (initializeWhisperModel modelId initVad env st fs).state.currentModelId
          = some modelId ∧
        (initializeWhisperModel modelId initVad env st fs).state.vadContext
          = (if initVad && env.vadOk (modelFilePath model) then
              some ⟨modelFilePath model⟩ else st.vadContext)) := by
  rcases hfind : WHISPER_MODELS.find? (fun m => m.id = modelId) with _ | model
  · constructor
    · intro _
      simp [initializeWhisperModel, hfind]
    · intro ctx vad hok
      simp [initializeWhisperModel, hfind] at hok
  · have hframe := downloadModel_frame model env.dl
      { st with isInitializingModel := true } fs
    have hid : model.id = modelId := by
      have := List.find?_some hfind
      simpa using this
    rcases hdl : (downloadModel model env.dl
        { st with isInitializingModel := true } fs).result with e | p
    · constructor
      · intro _
        simp [initializeWhisperModel, hfind, hdl, hframe.1, hframe.2.2.1]
      · intro ctx vad hok
        simp [initializeWhisperModel, hfind, hdl] at hok
    · have hp : p = modelFilePath model := by
        rcases downloadModel_result_cases model env.dl
            { st with isInitializingModel := true } fs with hc | hc <;>
          rw [hdl] at hc
        · exact Except.ok.inj hc
        · exact Except.noConfusion hc
      subst hp
      by_cases hio : env.initOk (modelFilePath model) = true
      · constructor
        · rintro ⟨e, he⟩
          simp [initializeWhisperModel, hfind, hdl, hio] at he
        · intro ctx vad hok
          have hctx : ctx = (⟨modelFilePath model⟩ : Ctx) := by
            rw [initializeWhisperModel] at hok
            simp only [hfind, hdl, hio, if_true] at hok
            have := Except.ok.inj hok
            exact (congrArg Prod.fst this).symm
          refine ⟨model, hfind, hid, hctx, ?_, ?_, ?_⟩ <;>
            rcases hv : initVad with _ | _ <;>
              by_cases hw : env.vadOk (modelFilePath model) = true <;>
                simp [initializeWhisperModel, hfind, hdl, hio, hv, hw,
                  hctx, hframe.2.1]
      · constructor
        · intro _
          simp [initializeWhisperModel, hfind, hdl, hio, hframe.1,
            hframe.2.2.1]
        · intro ctx vad hok
          simp [initializeWhisperModel, hfind, hdl, hio] at hok

/-- Witness for C4 (amended): initializing `base` after a `tiny` session
whose VAD handle is still held, without requesting VAD. -/
theorem initializeWhisperModel_supersedes_witness :
    (initializeWhisperModel "base" false envAllOk stAfterTinyVad
        [modelFilePath tinyModel, modelFilePath baseModel]).result
      = .ok (⟨modelFilePath baseModel⟩, (none : Option VadCtx)) ∧
    ∃ model, WHISPER_MODELS.find? (fun m => m.id = "base") = some model ∧
      model.id = "base" ∧
      (⟨modelFilePath baseModel⟩ : Ctx) = ⟨modelFilePath model⟩ ∧
      (initializeWhisperModel "base" false envAllOk stAfterTinyVad
          [modelFilePath tinyModel, modelFilePath baseModel]).state.whisperContext
        = some ⟨modelFilePath baseModel⟩ ∧
      (initializeWhisperModel "base" false envAllOk stAfterTinyVad
          [modelFilePath tinyModel, modelFilePath baseModel]).state.currentModelId
        = some "base" ∧
      (initializeWhisperModel "base" false envAllOk stAfterTinyVad
          [modelFilePath tinyModel, modelFilePath baseModel]).state.vadContext
        = (if false && envAllOk.vadOk (modelFilePath model) then
            some ⟨modelFilePath model⟩ else stAfterTinyVad.vadContext) :=
  ⟨rfl,
    (initializeWhisperModel_supersedes "base" false envAllOk stAfterTinyVad
      [modelFilePath tinyModel, modelFilePath baseModel]).2
      ⟨modelFilePath baseModel⟩ none rfl⟩

theorem mem_setKey (m : List (String × α)) (k : String) (v : α)
    (pr : String × α) (h : pr ∈ setKey m k v) : pr ∈ m ∨ pr = (k, v) := by
  unfold setKey eraseKey at h
  rcases List.mem_append.mp h with h | h
  · exact Or.inl (List.mem_of_mem_filter h)
  · simp only [List.mem_singleton] at h
    exact Or.inr h

theorem mem_of_fileExists (fs : FS) (p : String)
    (h : fileExists fs p = true) : p ∈ fs := by
  simpa [fileExists] using h

theorem mem_insertFile_of_mem (fs : FS) (p q : String) (h : q ∈ fs) :
    q ∈ insertFile fs p := by
  unfold insertFile
  split
  · exact h
  · exact List.mem_append_left _ h

theorem self_mem_insertFile (fs : FS) (p : String) : p ∈ insertFile fs p := by
  unfold insertFile
  split
  · exact mem_of_fileExists fs p (by assumption)
  · exact List.mem_append_right _ (List.mem_singleton.mpr rfl)

/-- **C6, counterexample.** The claimed two-way invariant — a cache entry
for X exists iff a file exists at X's deterministic cache path — fails at
process start when a model file is already on disk (the initial state has
no entries), and again after a failed download that leaves a (possibly
incomplete) file at the destination with no entry recorded. -/
theorem cacheEntry_iff_file_cex :
    (¬ ∀ m ∈ WHISPER_MODELS,
      (isModelDownloaded initialState m.id = true ↔
        fileExists [modelFilePath tinyModel] (modelFilePath m) = true)) ∧
    (downloadModel tinyModel ⟨100, [50], 404, true⟩ initialState
      []).state.modelFiles = [] ∧
    fileExists (downloadModel tinyModel ⟨100, [50], 404, true⟩ initialState
      []).fs (modelFilePath tinyModel) = true :=
  ⟨by decide, rfl, by rfl⟩

/-- **C6, amended.** The invariant holds in one direction only, and is
preserved by `downloadModel` rather than holding at every lifecycle point:
if every recorded cache entry points to an existing file before a
`downloadModel` call, and a success status implies the transfer wrote the
destination file, then every recorded cache entry points to an existing
file afterwards (entries are created only for files found on disk or
successfully written).  The converse direction fails at process start and
after a failed download, per the counterexample. -/
theorem downloadModel_entries_point_to_files (model : WhisperModel)
    (dl : DownloadBehavior) (st : ManagerState) (fs : FS)
    (hinv : ∀ pr ∈ st.modelFiles, pr.2 ∈ fs)
    (hwrite : dl.statusCode = 200 → dl.writesFile = true) :
    ∀ pr ∈ (downloadModel model dl st fs).state.modelFiles,
      pr.2 ∈ (downloadModel model dl st fs).fs := by
  intro pr hpr
  by_cases hex : fileExists fs (modelFilePath model) = true
  · simp only [downloadModel, hex, if_true] at hpr ⊢
    rcases mem_setKey _ _ _ _ hpr with h | h
    · exact hinv pr h
    · rw [h]
      exact mem_of_fileExists fs _ hex
  · by_cases hs : dl.statusCode = 200
    · have hw : dl.writesFile = true := hwrite hs
      simp only [downloadModel, hex, hs, hw, if_true, if_false,
        Bool.false_eq_true] at hpr ⊢
      rcases mem_setKey _ _ _ _ hpr with h | h
      · exact mem_insertFile_of_mem _ _ _ (hinv pr h)
      · rw [h]
        exact self_mem_insertFile _ _
    · simp only [downloadModel, hex, hs, if_true, if_false,
        Bool.false_eq_true] at hpr ⊢
      split
      · exact mem_insertFile_of_mem _ _ _ (hinv pr hpr)
      · exact hinv pr hpr

/-- Witness for C6 (amended): a successful transfer for `tiny` from an
empty file system and an empty cache map. -/
theorem downloadModel_entries_point_to_files_witness :
    (∀ pr ∈ initialState.modelFiles, pr.2 ∈ ([] : FS)) ∧
    ((200 : Int) = 200 →
      (⟨100, [50, 100], 200, true⟩ : DownloadBehavior).writesFile = true) ∧
    ∀ pr ∈ (downloadModel tinyModel ⟨100, [50, 100], 200, true⟩ initialState
        []).state.modelFiles,
      pr.2 ∈ (downloadModel tinyModel ⟨100, [50, 100], 200, true⟩
        initialState []).fs :=
  ⟨by decide, fun _ => rfl,
    downloadModel_entries_point_to_files tinyModel ⟨100, [50, 100], 200, true⟩
      initialState [] (by decide) (fun _ => rfl)⟩

/-- **C7, counterexample.** The progress callback stores
`bytesWritten / contentLength` unclamped, so the claimed bound "a fraction
in [0.0, 1.0] for any content length the transfer reports" fails: when the
transfer reports content length `-1` (length unknown), the stored values
are negative, and they decrease while bytes-written increases. -/
theorem downloadProgress_range_cex :
    progressValues ⟨-1, [10, 50], 404, true⟩ = [-10, -50] ∧
    ¬ ((0 : ℚ) ≤ -10) ∧
    ¬ ((-10 : ℚ) ≤ -50) ∧
    lookupKey (downloadModel tinyModel ⟨-1, [10, 50], 404, true⟩ initialState
      []).state.downloadProgress "tiny" = some (-50) := by
  refine ⟨?_, by norm_num, by norm_num, ?_⟩
  · norm_num [progressValues]
  · norm_num [downloadModel, applyProgress, setKey, eraseKey, lookupKey,
      fileExists, initialState, tinyModel]

/-- **C7, amended.** For a single download whose reported content length is
positive and whose reported bytes-written stay between 0 and the content
length, every stored progress value is a fraction in [0.0, 1.0]; the
stored sequence is non-decreasing when bytes-written is non-decreasing;
and on a success status the final stored value is exactly 1.0. -/
theorem downloadProgress_bounds_monotone (model : WhisperModel)
    (dl : DownloadBehavior) (st : ManagerState) (fs : FS)
    (hcl : 0 < dl.contentLength)
    (hbw : ∀ bw ∈ dl.events, 0 ≤ bw ∧ bw ≤ dl.contentLength)
    (hmono : dl.events.Chain' (fun a b => a ≤ b)) :
    (∀ q ∈ progressValues dl, 0 ≤ q ∧ q ≤ 1) ∧
    (progressValues dl).Chain' (fun a b => a ≤ b) ∧
    (¬ fileExists fs (modelFilePath model) = true → dl.statusCode = 200 →
      lookupKey (downloadModel model dl st fs).state.downloadProgress
        model.id = some 1) := by
  refine ⟨?_, ?_, ?_⟩
  · intro q hq
    rcases List.mem_map.mp hq with ⟨bw, hmem, rfl⟩
    exact ⟨div_nonneg (hbw bw hmem).1 (le_of_lt hcl),
      (div_le_one hcl).mpr (hbw bw hmem).2⟩
  · unfold progressValues
    rw [List.chain'_map]
    exact List.Chain'.imp
      (fun a b h => div_le_div_of_nonneg_right h (le_of_lt hcl)) hmono
  · intro hex hs
    simp [downloadModel, hex, hs, lookupKey_setKey]

/-- Witness for C7 (amended): a 200-status transfer for `tiny` reporting
content length 100 and bytes-written 0, 50, 100. -/
theorem downloadProgress_bounds_monotone_witness :
    (0 : ℚ) < 100 ∧
    (∀ bw ∈ [(0 : ℚ), 50, 100], 0 ≤ bw ∧ bw ≤ 100) ∧
    List.Chain' (fun a b => a ≤ b) [(0 : ℚ), 50, 100] ∧
    ((∀ q ∈ progressValues ⟨100, [0, 50, 100], 200, true⟩, 0 ≤ q ∧ q ≤ 1) ∧
      (progressValues ⟨100, [0, 50, 100], 200, true⟩).Chain'
        (fun a b => a ≤ b) ∧
      (¬ fileExists [] (modelFilePath tinyModel) = true →
        (200 : Int) = 200 →
        lookupKey (downloadModel tinyModel ⟨100, [0, 50, 100], 200, true⟩
          initialState []).state.downloadProgress tinyModel.id = some 1)) :=
  ⟨by norm_num, by norm_num,
    by norm_num [List.chain'_cons, List.chain'_singleton],
    downloadProgress_bounds_monotone tinyModel ⟨100, [0, 50, 100], 200, true⟩
      initialState [] (by norm_num) (by norm_num)
      (by norm_num [List.chain'_cons, List.chain'_singleton])⟩

/-- **C10.** When the transfer completes with a non-success status,
`downloadModel` throws without deleting whatever the file system wrote at
the destination path; hence if a (possibly incomplete) file was written
there, the next `downloadModel` call for the same descriptor takes the
already-exists branch: it performs no download, returns the leftover
file's path, and registers it as the cached model. -/
theorem downloadModel_leftover_registered (model : WhisperModel)
    (dl dl2 : DownloadBehavior) (st : ManagerState) (fs : FS)
    (hex : ¬ fileExists fs (modelFilePath model) = true)
    (hs : ¬ dl.statusCode = 200)
    (hw : dl.writesFile = true) :
    (downloadModel model dl st fs).result
      = .error (.downloadFailed dl.statusCode) ∧
    fileExists (downloadModel model dl st fs).fs (modelFilePath model)
      = true ∧
    (downloadModel model dl2 (downloadModel model dl st fs).state
      (downloadModel model dl st fs).fs).result
      = .ok (modelFilePath model) ∧
    (downloadModel model dl2 (downloadModel model dl st fs).state
      (downloadModel model dl st fs).fs).downloads = 0 ∧
    lookupKey (downloadModel model dl2 (downloadModel model dl st fs).state
      (downloadModel model dl st fs).fs).state.modelFiles model.id
      = some (modelFilePath model) := by
  have h1 : (downloadModel model dl st fs).fs
      = insertFile fs (modelFilePath model) := by
    simp [downloadModel, hex, hs, hw]
  have hex2 : fileExists (downloadModel model dl st fs).fs
      (modelFilePath model) = true := by
    rw [h1]
    simpa [fileExists] using self_mem_insertFile fs (modelFilePath model)
  have hmain : ∀ (stX : ManagerState) (fsX : FS),
      fileExists fsX (modelFilePath model) = true →
      (downloadModel model dl2 stX fsX).result = .ok (modelFilePath model) ∧
        (downloadModel model dl2 stX fsX).downloads = 0 ∧
        lookupKey (downloadModel model dl2 stX fsX).state.modelFiles model.id
          = some (modelFilePath model) := by
    intro stX fsX hx
    simp [downloadModel, hx, lookupKey_setKey]
  obtain ⟨h3, h4, h5⟩ := hmain _ _ hex2
  exact ⟨by simp [downloadModel, hex, hs], hex2, h3, h4, h5⟩

/-- Witness for C10: a 404 transfer for `tiny` that writes a leftover
file, followed by a second call that registers it with zero downloads. -/
theorem downloadModel_leftover_registered_witness :
    (¬ fileExists [] (modelFilePath tinyModel) = true) ∧
    (¬ (404 : Int) = 200) ∧
    (⟨100, [50], 404, true⟩ : DownloadBehavior).writesFile = true ∧
    ((downloadModel tinyModel ⟨100, [50], 404, true⟩ initialState []).result
        = .error (.downloadFailed 404) ∧
      fileExists (downloadModel tinyModel ⟨100, [50], 404, true⟩ initialState
        []).fs (modelFilePath tinyModel) = true ∧
      (downloadModel tinyModel ⟨7, [], 500, false⟩
        (downloadModel tinyModel ⟨100, [50], 404, true⟩ initialState
          []).state
        (downloadModel tinyModel ⟨100, [50], 404, true⟩ initialState
          []).fs).result = .ok (modelFilePath tinyModel) ∧
      (downloadModel tinyModel ⟨7, [], 500, false⟩
        (downloadModel tinyModel ⟨100, [50], 404, true⟩ initialState
          []).state
        (downloadModel tinyModel ⟨100, [50], 404, true⟩ initialState
          []).fs).downloads = 0 ∧
      lookupKey (downloadModel tinyModel ⟨7, [], 500, false⟩
        (downloadModel tinyModel ⟨100, [50], 404, true⟩ initialState
          []).state
        (downloadModel tinyModel ⟨100, [50], 404, true⟩ initialState
          []).fs).state.modelFiles tinyModel.id
        = some (modelFilePath tinyModel)) :=
  ⟨by decide, by decide, rfl,
    downloadModel_leftover_registered tinyModel ⟨100, [50], 404, true⟩
      ⟨7, [], 500, false⟩ initialState [] (by decide) (by decide) rfl⟩

end WhisperApp
